import Mathlib

/-!
Shallow embedding of the mindtest-backend analytics server.

The repository ships several near-duplicate server implementations:
* `server.js` (first document, "main variant"): SQLite-backed, transactional
  batch insert, dayjs day-boundary expansion of date filters, 10-day session
  cookie.
* `server.js` second document ("v2 variant"): same storage, but event field
  resolution reads only the explicit `page` / `type` / `payload` fields.
* `server.js` third document ("fallback variant"): stores `e.ts || now` and
  `e.sessionId || session_id`, resolves the type from `e.event` only, and its
  session middleware sets a cookie with no `maxAge`.
* `server-render.js` ("render variant"): Supabase-backed; inserts batch items
  one by one, swallowing per-item insert errors; date filters compare against
  the raw supplied date value (no start-of-day/end-of-day expansion).
* the unnamed tracker file: same realtime window and the dashboard reuses one
  distinct-session count for both `totalUsers` and `totalSessions`.

Modelling conventions: ISO-8601 UTC timestamp strings compare lexicographically
exactly as the instants they denote, so timestamps are embedded as integer
epoch milliseconds and SQL `ts >= ?` / `ts <= ?` text comparisons as integer
comparisons.  JSON-serialized payload objects are opaque strings.  An absent
cookie or field is `Option.none`.  In every better-sqlite3 call site of the
repository the only binding that can be non-string is `session_id`: the main
and v2 variants pass `req.cookies.session_id` straight through, which is
`undefined` — never `null` — when the request carries no cookie, and
better-sqlite3 refuses an `undefined` binding with a TypeError; so the SQLite
insert statements fail on `session_id = none`.  The Supabase client instead
serializes the row to JSON, dropping the `undefined` key, and the row is
stored with SQL NULL — there `none` persists as NULL.  JavaScript string
truthiness (empty string is falsy) is modelled explicitly; object-valued
fields (`payload`, `properties`) are truthy exactly when present, matching JS
object truthiness for non-null objects.
-/

namespace Mindtest

/-- One row of the `events` table (schema of `server.js` / `migrations/001_init.sql`);
`ts` is epoch milliseconds standing for the stored ISO string. -/
structure EventRow where
  id : String
  ts : Int
  session_id : Option String
  ip : String
  page : String
  type : String
  payload : String
deriving DecidableEq, Repr

/-- One row of the `results` table. -/
structure ResultRow where
  id : String
  ts : Int
  session_id : Option String
  result_name : String
  score_json : String
deriving DecidableEq, Repr

/-- The SQLite database state: the two application tables. -/
structure DB where
  events : List EventRow
  results : List ResultRow
deriving DecidableEq, Repr

/-- The embedded `properties` object of an incoming event item: the two keys
the server inspects (`properties.page`, `properties.event`) plus its JSON
serialization `JSON.stringify(it.properties)`. -/
structure PropsObj where
  page : Option String
  event : Option String
  serialized : String
deriving DecidableEq, Repr

/-- An incoming event item of a `POST /api/events` body (`body` itself or an
element of `body.batch`): exactly the fields any variant reads.  `ts` and
`sessionId` are only consulted by the fallback variant. -/
structure EventItem where
  page : Option String
  type : Option String
  event : Option String
  payload : Option String
  properties : Option PropsObj
  ts : Option Int
  sessionId : Option String
deriving DecidableEq, Repr

/-- An event item with every field absent (the empty JSON body). -/
def emptyItem : EventItem :=
  { page := none, type := none, event := none, payload := none,
    properties := none, ts := none, sessionId := none }

/-- JSON.stringify of the empty object. -/
def emptyJson : String := "\x7b\x7d"

/-- JavaScript truthiness of a possibly-absent string: `undefined`, `null` and
the empty string are falsy. -/
def strTruthy : Option String → Bool
  | none => false
  | some s => s != ""

/-- JavaScript `a || b` on a possibly-absent string `a` with string default `b`. -/
def jsOrString (a : Option String) (b : String) : String :=
  match a with
  | some s => if s = "" then b else s
  | none => b

/-- First truthy string of a precedence list, else the default.  Used for the
spec's stated per-field resolution precedence. -/
def firstTruthy : List (Option String) → String → String
  | [], d => d
  | x :: rest, d =>
    match x with
    | some s => if s = "" then firstTruthy rest d else s
    | none => firstTruthy rest d

/-- Main/render variants: `it.page || it.properties?.page || ''`. -/
def resolvePage (it : EventItem) : String :=
  jsOrString it.page (jsOrString (it.properties.bind PropsObj.page) "")

/-- Main/render variants: `it.type || it.event || (it.properties?.event) || 'custom'`. -/
def resolveType (it : EventItem) : String :=
  jsOrString it.type (jsOrString it.event
    (jsOrString (it.properties.bind PropsObj.event) "custom"))

/-- Main/render variants: `JSON.stringify(it.payload || it.properties || {})`;
objects are truthy whenever present. -/
def resolvePayload (it : EventItem) : String :=
  match it.payload with
  | some p => p
  | none =>
    match it.properties with
    | some pr => pr.serialized
    | none => emptyJson

/-- Modelled from the spec's words ("resolve `page` from an explicit field or
an embedded properties field, defaulting to empty"): the claim's stated
resolution of the stored page, for comparison with the code's. -/
def specPage (it : EventItem) : String :=
  firstTruthy [it.page, it.properties.bind PropsObj.page] ""

/-- Modelled from the spec's words ("resolve `event_type` from an explicit
field or alias fields, defaulting to custom"). -/
def specType (it : EventItem) : String :=
  firstTruthy [it.type, it.event, it.properties.bind PropsObj.event] "custom"

/-- Modelled from the spec's words ("resolve `properties` from an explicit
field or an embedded field, defaulting to an empty mapping"). -/
def specPayload (it : EventItem) : String :=
  match it.payload with
  | some p => p
  | none => (it.properties.map PropsObj.serialized).getD emptyJson

/-- Rows the main variant's `POST /api/events` builds for a batch: one shared
server timestamp `now`, the request cookie's session, the request IP, the
resolved fields, and one fresh nanoid per item. -/
def mkEventRows (now : Int) (sess : Option String) (ip : String) :
    List EventItem → List String → List EventRow
  | [], _ => []
  | it :: its, ids =>
    { id := ids.headD "", ts := now, session_id := sess, ip := ip,
      page := resolvePage it, type := resolveType it,
      payload := resolvePayload it } :: mkEventRows now sess ip its ids.tail

/-- Rows built by the second SQLite variant: `String(it.page || '')`,
`String(it.type || 'custom')`, `JSON.stringify(it.payload || {})` — no alias
or properties fallbacks. -/
def mkEventRowsV2 (now : Int) (sess : Option String) (ip : String) :
    List EventItem → List String → List EventRow
  | [], _ => []
  | it :: its, ids =>
    { id := ids.headD "", ts := now, session_id := sess, ip := ip,
      page := jsOrString it.page "", type := jsOrString it.type "custom",
      payload := it.payload.getD emptyJson } :: mkEventRowsV2 now sess ip its ids.tail

/-- Rows built by the fallback variant: `ts: e.ts || now`,
`session_id: e.sessionId || session_id`, `type: String(e.event || 'custom')`,
`payload: JSON.stringify(e.properties || {})`. -/
def mkEventRowsFallback (now : Int) (sess : String) (ip : String) :
    List EventItem → List String → List EventRow
  | [], _ => []
  | it :: its, ids =>
    { id := ids.headD "", ts := it.ts.getD now,
      session_id := some (jsOrString it.sessionId sess), ip := ip,
      page := jsOrString it.page "",
      type := jsOrString it.event "custom",
      payload := (it.properties.map PropsObj.serialized).getD emptyJson }
      :: mkEventRowsFallback now sess ip its ids.tail

/-- `stInsertEvent.run`: better-sqlite3 binding plus insert.  Every field of
the run object except `session_id` is a string by construction (`nanoid()`,
the ISO `now`, `String(...)`, `JSON.stringify(...)`), while `session_id` is
`req.cookies.session_id` passed through, which is `undefined` when the request
carries no cookie; better-sqlite3 rejects an `undefined` binding with a
TypeError before touching the table.  A bound row can still fail on a
primary-key violation of `events.id TEXT PRIMARY KEY`. -/
def insertEvent (db : DB) (r : EventRow) : Except String DB :=
  if r.session_id = none then
    Except.error "TypeError: SQLite3 can only bind numbers, strings, bigints, buffers, and null"
  else if db.events.any (fun e => e.id = r.id) then
    Except.error "UNIQUE constraint failed: events.id"
  else
    Except.ok { db with events := db.events ++ [r] }

/-- `stInsertResult.run`: same binding rejection of an `undefined`
`session_id` and same primary-key failure mode. -/
def insertResult (db : DB) (r : ResultRow) : Except String DB :=
  if r.session_id = none then
    Except.error "TypeError: SQLite3 can only bind numbers, strings, bigints, buffers, and null"
  else if db.results.any (fun e => e.id = r.id) then
    Except.error "UNIQUE constraint failed: results.id"
  else
    Except.ok { db with results := db.results ++ [r] }

/-- A render-variant Supabase `.insert([eventData])` call: the JSON
serialization of the row drops an `undefined` `session_id`, so a cookieless
request's row is stored with SQL NULL; the call reports an error (rather than
throwing) on a primary-key conflict. -/
def supabaseInsertEvent (db : DB) (r : EventRow) : Except String DB :=
  if db.events.any (fun e => e.id = r.id) then
    Except.error "duplicate key value violates unique constraint"
  else
    Except.ok { db with events := db.events ++ [r] }

/-- A render-variant Supabase `.insert([resultData])` call, same semantics. -/
def supabaseInsertResult (db : DB) (r : ResultRow) : Except String DB :=
  if db.results.any (fun e => e.id = r.id) then
    Except.error "duplicate key value violates unique constraint"
  else
    Except.ok { db with results := db.results ++ [r] }

/-- The body of `db.transaction((arr) => { for ... stInsertEvent.run(...) })`:
sequential inserts; the first failure aborts and better-sqlite3 rolls the
whole transaction back, so the error result carries no partial state. -/
def insertManyEvents (db : DB) : List EventRow → Except String DB
  | [] => Except.ok db
  | r :: rs =>
    match insertEvent db r with
    | Except.ok db' => insertManyEvents db' rs
    | Except.error e => Except.error e

/-- A JSON route response: HTTP status, the `ok` flag, and the `inserted`
count of the success envelope. -/
structure PostResponse where
  status : Nat
  ok : Bool
  inserted : Nat
deriving DecidableEq, Repr

/-- Main variant `POST /api/events`: builds the batch rows (one shared `now`),
runs the transaction, answers `{ok:true, inserted:N}` on success; the catch
block answers HTTP 500 with an error envelope and the database is unchanged
(transaction rolled back). -/
def postEvents (db : DB) (now : Int) (ip : String) (cookieSession : Option String)
    (items : List EventItem) (freshIds : List String) : PostResponse × DB :=
  let rows := mkEventRows now cookieSession ip items freshIds
  match insertManyEvents db rows with
  | Except.ok db' => ({ status := 200, ok := true, inserted := items.length }, db')
  | Except.error _ => ({ status := 500, ok := false, inserted := 0 }, db)

/-- Render variant `POST /api/events` (Supabase): the same field resolution,
but each item is inserted by its own awaited call inside a plain loop; a
per-item insert error is only logged (`console.error`) and the loop continues,
and the response is `{ok:true, inserted: items.length}` regardless. -/
def renderPostEvents (db : DB) (now : Int) (ip : String) (cookieSession : Option String)
    (items : List EventItem) (freshIds : List String) : PostResponse × DB :=
  let rows := mkEventRows now cookieSession ip items freshIds
  let db' := rows.foldl
    (fun acc r =>
      match supabaseInsertEvent acc r with
      | Except.ok d => d
      | Except.error _ => acc) db
  ({ status := 200, ok := true, inserted := items.length }, db')

/-- Fallback variant `POST /api/events`: transactional like the main variant,
but rows come from `mkEventRowsFallback` (client `ts`/`sessionId` honoured). -/
def fallbackPostEvents (db : DB) (now : Int) (ip : String) (sess : String)
    (batch : List EventItem) (freshIds : List String) : PostResponse × DB :=
  let rows := mkEventRowsFallback now sess ip batch freshIds
  match insertManyEvents db rows with
  | Except.ok db' => ({ status := 200, ok := true, inserted := batch.length }, db')
  | Except.error _ => ({ status := 500, ok := false, inserted := 0 }, db)

/-- Main variant `POST /api/results`: one row, server timestamp, cookie
session, destructuring defaults `result_name = ''`, `scores = {}`. -/
def postResults (db : DB) (now : Int) (cookieSession : Option String)
    (result_name : Option String) (scoresJson : Option String) (freshId : String) :
    PostResponse × DB :=
  let row : ResultRow :=
    { id := freshId, ts := now, session_id := cookieSession,
      result_name := result_name.getD "", score_json := scoresJson.getD emptyJson }
  match insertResult db row with
  | Except.ok db' => ({ status := 200, ok := true, inserted := 1 }, db')
  | Except.error _ => ({ status := 500, ok := false, inserted := 0 }, db)

/-- Render variant `POST /api/results`: one awaited Supabase insert whose
error is only logged (`console.error`); the response is `{ok:true}` either
way. -/
def renderPostResults (db : DB) (now : Int) (cookieSession : Option String)
    (result_name : Option String) (scoresJson : Option String) (freshId : String) :
    PostResponse × DB :=
  let row : ResultRow :=
    { id := freshId, ts := now, session_id := cookieSession,
      result_name := result_name.getD "", score_json := scoresJson.getD emptyJson }
  match supabaseInsertResult db row with
  | Except.ok db' => ({ status := 200, ok := true, inserted := 1 }, db')
  | Except.error _ => ({ status := 200, ok := true, inserted := 1 }, db)

/-- The effective LIMIT of `GET /api/events` / `GET /api/results`:
`Math.min(Number(pageSize) || 100, 500)`.  `none` stands for an absent or
non-numeric `pageSize` (where `Number(...)` is `NaN`); `Number(x) || 100`
replaces both `NaN` and `0` by the default 100. -/
def computeLimit (pageSize : Option Int) : Int :=
  min
    (match pageSize with
     | some n => if n = 0 then 100 else n
     | none => 100)
    500

/-- The OFFSET of the paged queries: `(Number(page) - 1) * limit`. -/
def computeOffset (pageSize : Option Int) (page : Int) : Int :=
  (page - 1) * computeLimit pageSize

/-- Insert one row into a list sorted by `ts` descending (stand-in for
`ORDER BY ts DESC`). -/
def insertRowDesc (x : EventRow) : List EventRow → List EventRow
  | [] => [x]
  | y :: ys => if x.ts ≤ y.ts then y :: insertRowDesc x ys else x :: y :: ys

/-- Sort event rows by `ts` descending. -/
def sortRowsDesc : List EventRow → List EventRow
  | [] => []
  | x :: xs => insertRowDesc x (sortRowsDesc xs)

/-- SQLite `LIMIT @limit OFFSET @offset` applied to an ordered row list: a
negative OFFSET reads from the start and a negative LIMIT means no upper
bound. -/
def sqlPage (rows : List EventRow) (limit offset : Int) : List EventRow :=
  let dropped := rows.drop offset.toNat
  if limit < 0 then dropped else dropped.take limit.toNat

/-- Milliseconds in a day. -/
def msPerDay : Int := 86400000

/-- `dayjs(d).startOf('day').toISOString()` for the calendar day with index
`d`: its midnight instant.  (UTC deployment: local midnight = UTC midnight,
and the raw date string `d` itself also denotes this instant.) -/
def dayStartMs (d : Int) : Int := d * msPerDay

/-- `dayjs(d).endOf('day').toISOString()`: 23:59:59.999 of day `d`, the last
representable millisecond of the day. -/
def dayEndMs (d : Int) : Int := d * msPerDay + 86399999

/-- The prepared-statement WHERE clause
`(@start IS NULL OR ts >= @start) AND (@end IS NULL OR ts <= @end)`. -/
def tsFilter (startTs endTs : Option Int) (ts : Int) : Bool :=
  (match startTs with
   | none => true
   | some s => decide (s ≤ ts)) &&
  (match endTs with
   | none => true
   | some e => decide (ts ≤ e))

/-- Rows matched by the main variant's `GET /api/events` filter for date-only
params: supplied dates are expanded with `startOf('day')` / `endOf('day')`
before the comparison. -/
def eventsInRangeMain (db : DB) (startDay endDay : Option Int) : List EventRow :=
  db.events.filter (fun r => tsFilter (startDay.map dayStartMs) (endDay.map dayEndMs) r.ts)

/-- Rows matched by the render variant's `GET /api/events` filter: raw
`gte('ts', start)` / `lte('ts', end)` against the supplied date value, i.e.
against the midnight instant of the date, with no day expansion. -/
def eventsInRangeRender (db : DB) (startDay endDay : Option Int) : List EventRow :=
  db.events.filter (fun r => tsFilter (startDay.map dayStartMs) (endDay.map dayStartMs) r.ts)

/-- The full main-variant `GET /api/events` read: filter, order newest first,
page. -/
def queryEventsMain (db : DB) (startDay endDay : Option Int) (pageSize : Option Int)
    (page : Int) : List EventRow :=
  sqlPage (sortRowsDesc (eventsInRangeMain db startDay endDay))
    (computeLimit pageSize) (computeOffset pageSize page)

/-- A `Set-Cookie` instruction produced by the session middleware. -/
structure SetCookie where
  cookieName : String
  value : String
  maxAge : Option Int
  httpOnly : Bool
deriving DecidableEq, Repr

/-- Main/render session middleware: `if (!req.cookies.session_id)` mint a
`nanoid()` cookie with `maxAge: 10*24*3600*1000, httpOnly: true`; otherwise
set nothing.  `fresh` is the value `nanoid()` returned. -/
def sessionMiddleware (cookieSession : Option String) (fresh : String) : Option SetCookie :=
  if strTruthy cookieSession then none
  else some { cookieName := "session_id", value := fresh,
              maxAge := some (10 * 24 * 3600 * 1000), httpOnly := true }

/-- Fallback-variant session middleware: value
`sess_${Date.now()}_${nanoid(6)}` with `httpOnly: false, sameSite: lax,
secure: false` and no `maxAge` at all. -/
def sessionMiddlewareFallback (cookieSession : Option String) (nowMs : Int)
    (fresh6 : String) : Option SetCookie :=
  if strTruthy cookieSession then none
  else some { cookieName := "session_id",
              value := "sess_" ++ toString nowMs ++ "_" ++ fresh6,
              maxAge := none, httpOnly := false }

/-- One full main-variant request for `POST /api/events`: the middleware runs
first (deciding the response cookie from the request cookie only), then the
handler inserts using `req.cookies.session_id` — never the freshly minted
value. -/
def handleRequestEvents (db : DB) (cookieSession : Option String) (ip : String)
    (fresh : String) (now : Int) (items : List EventItem) (freshIds : List String) :
    Option SetCookie × PostResponse × DB :=
  (sessionMiddleware cookieSession fresh,
   postEvents db now ip cookieSession items freshIds)

/-- One full main-variant request for `POST /api/results`. -/
def handleRequestResults (db : DB) (cookieSession : Option String) (fresh : String)
    (now : Int) (result_name : Option String) (scoresJson : Option String)
    (freshId : String) : Option SetCookie × PostResponse × DB :=
  (sessionMiddleware cookieSession fresh,
   postResults db now cookieSession result_name scoresJson freshId)

/-- `dayjs().subtract(5, 'minute')` of the current instant. -/
def fiveMinutesAgoOf (now : Int) : Int := now - 5 * 60000

/-- The realtime window predicate `ts >= fiveMinutesAgo` shared by every
variant's `GET /api/realtime` queries. -/
def inWindow (now ts : Int) : Bool := decide (fiveMinutesAgoOf now ≤ ts)

/-- `SELECT COUNT(DISTINCT session_id) ...`: SQL `COUNT(DISTINCT c)` ignores
NULLs, hence the `filterMap`. -/
def countDistinctSessions (rows : List EventRow) : Nat :=
  ((rows.filterMap EventRow.session_id).dedup).length

/-- The `GET /api/realtime` response body (counts and recent list). -/
structure RealtimeResp where
  recentEvents : Nat
  onlineUsers : Nat
  recentEventList : List EventRow
deriving DecidableEq, Repr

/-- `GET /api/realtime`: count and distinct-session count over
`ts >= fiveMinutesAgo`, plus the 20 most recent events. -/
def realtime (db : DB) (now : Int) : RealtimeResp :=
  { recentEvents := (db.events.filter (fun r => inWindow now r.ts)).length,
    onlineUsers := countDistinctSessions (db.events.filter (fun r => inWindow now r.ts)),
    recentEventList := (sortRowsDesc db.events).take 20 }

/-- Insert into a `(group, count)` list sorted by count descending
(`ORDER BY count DESC`). -/
def insertCountDesc (x : String × Nat) : List (String × Nat) → List (String × Nat)
  | [] => [x]
  | y :: ys => if x.2 ≤ y.2 then y :: insertCountDesc x ys else x :: y :: ys

/-- Sort a `(group, count)` list by count descending. -/
def sortCountDesc : List (String × Nat) → List (String × Nat)
  | [] => []
  | x :: xs => insertCountDesc x (sortCountDesc xs)

/-- `SELECT g, COUNT(*) ... GROUP BY g ORDER BY count DESC` over a column
value list: one pair per distinct value with its multiplicity, highest count
first; the empty input yields the empty list. -/
def groupCountDesc (vals : List String) : List (String × Nat) :=
  sortCountDesc (vals.dedup.map (fun v => (v, vals.count v)))

/-- The two-digit-hour bucket `strftime('%H', ts)` of a timestamp. -/
def hourOf (ts : Int) : Int := (ts / 3600000) % 24

/-- The `GET /api/dashboard` response body (the aggregate numbers and
GROUP-BY lists of the main variant). -/
structure DashboardResp where
  totalEvents : Nat
  totalUsers : Nat
  totalSessions : Nat
  todayEvents : Nat
  todayUsers : Nat
  topEvents : List (String × Nat)
  pageViews : List (String × Nat)
  quizResults : List (String × Nat)
  hourlyEvents : List (Int × Nat)
deriving DecidableEq, Repr

/-- `SELECT COUNT(DISTINCT session_id) as count FROM events` — the
`totalUsers` prepared statement of `GET /api/dashboard`. -/
def totalUsersQuery (db : DB) : Nat := countDistinctSessions db.events

/-- `SELECT COUNT(DISTINCT session_id) as count FROM events` — the separate
but textually identical `totalSessions` prepared statement. -/
def totalSessionsQuery (db : DB) : Nat := countDistinctSessions db.events

/-- Main variant `GET /api/dashboard`: recomputed fresh per call from the
current table contents; `today` is the start-of-day instant. -/
def dashboard (db : DB) (today : Int) : DashboardResp :=
  { totalEvents := db.events.length,
    totalUsers := totalUsersQuery db,
    totalSessions := totalSessionsQuery db,
    todayEvents := (db.events.filter (fun r => decide (today ≤ r.ts))).length,
    todayUsers := countDistinctSessions (db.events.filter (fun r => decide (today ≤ r.ts))),
    topEvents := (groupCountDesc (db.events.map EventRow.type)).take 6,
    pageViews := (groupCountDesc ((db.events.filter
      (fun r => r.type == "page_view")).map EventRow.page)).take 10,
    quizResults := groupCountDesc (db.results.map ResultRow.result_name),
    hourlyEvents :=
      ((db.events.filter (fun r => decide (today ≤ r.ts))).map
        (fun r => hourOf r.ts)).dedup.map
        (fun h => (h, ((db.events.filter (fun r => decide (today ≤ r.ts))).map
          (fun r => hourOf r.ts)).count h)) }

/-- Concrete pre-existing row used in end-to-end evaluations: an event with id
`"a"` already stored. -/
def c1row : EventRow :=
  { id := "a", ts := 0, session_id := some "s", ip := "", page := "",
    type := "custom", payload := emptyJson }

/-- A database already holding `c1row`, so that re-inserting id `"a"` is the
induced storage failure (primary-key violation). -/
def c1db : DB := { events := [c1row], results := [] }

/-- A noon-of-day-0 page view, for the date-filter boundary evaluations. -/
def c3row : EventRow :=
  { id := "r0", ts := 43200000, session_id := none, ip := "", page := "/quiz",
    type := "page_view", payload := emptyJson }

/-- A properties object carrying an embedded page. -/
def c6props : PropsObj := { page := some "/quiz", event := none, serialized := "p1" }

/-- An item carrying only the alias fields: `event` plus `properties.page`. -/
def c6item : EventItem :=
  { emptyItem with event := some "page_view", properties := some c6props }

/-- An item carrying a client-supplied timestamp. -/
def c5item : EventItem := { emptyItem with ts := some 123 }

theorem firstTruthy_cons (a : Option String) (l : List (Option String)) (d : String) :
    firstTruthy (a :: l) d = jsOrString a (firstTruthy l d) := by
  cases a <;> rfl

theorem firstTruthy_nil (d : String) : firstTruthy [] d = d := rfl

theorem mkEventRows_all_ts (items : List EventItem) (ids : List String) (now : Int)
    (s : Option String) (ip : String) :
    (mkEventRows now s ip items ids).all (fun r => r.ts == now) = true := by
  induction items generalizing ids with
  | nil => rfl
  | cons it its ih => simp [mkEventRows, ih]

theorem mkEventRows_all_session (items : List EventItem) (ids : List String) (now : Int)
    (s : Option String) (ip : String) :
    (mkEventRows now s ip items ids).all (fun r => r.session_id == s) = true := by
  induction items generalizing ids with
  | nil => rfl
  | cons it its ih => simp [mkEventRows, ih]

theorem mkEventRowsFallback_map_ts (items : List EventItem) (ids : List String) (now : Int)
    (s : String) (ip : String) :
    (mkEventRowsFallback now s ip items ids).map EventRow.ts
      = items.map (fun it => it.ts.getD now) := by
  induction items generalizing ids with
  | nil => rfl
  | cons it its ih => simp [mkEventRowsFallback, ih]

theorem insertManyEvents_ok_events (rows : List EventRow) (db db' : DB)
    (h : insertManyEvents db rows = Except.ok db') :
    db'.events = db.events ++ rows := by
  induction rows generalizing db with
  | nil =>
    simp only [insertManyEvents] at h
    cases h
    simp
  | cons r rs ih =>
    simp only [insertManyEvents, insertEvent] at h
    by_cases hs : r.session_id = none
    · simp [hs] at h
    · by_cases hc : db.events.any (fun e => e.id = r.id)
      · simp [hs, hc] at h
      · simp only [hs, hc, if_false, Bool.false_eq_true, reduceIte] at h
        have := ih { db with events := db.events ++ [r] } h
        simpa using this

theorem mkEventRows_all_nofresh (items : List EventItem) (ids : List String) (now : Int)
    (ip fresh : String) :
    (mkEventRows now none ip items ids).all
      (fun r => !(r.session_id == some fresh)) = true := by
  induction items generalizing ids with
  | nil => rfl
  | cons it its ih => simp [mkEventRows, ih]

theorem postEvents_new_rows (db : DB) (now : Int) (ip : String) (cs : Option String)
    (items : List EventItem) (ids : List String) :
    (postEvents db now ip cs items ids).2.events.drop db.events.length = []
    ∨ (postEvents db now ip cs items ids).2.events.drop db.events.length
      = mkEventRows now cs ip items ids := by
  cases h : insertManyEvents db (mkEventRows now cs ip items ids) with
  | ok db' =>
    right
    have hev := insertManyEvents_ok_events _ _ _ h
    simp [postEvents, h, hev, List.drop_left]
  | error e =>
    left
    simp [postEvents, h, List.drop_length]

/-- C1: as designed (and as the main SQLite variant implements it), a batch
either commits whole or not at all; but the Supabase render variant inserts
per item, swallows each per-item insert error, keeps the rows that did insert,
and answers `{ok:true, inserted:N}` regardless.  Against a store already
holding id `"a"`, a 2-item batch given ids `["a","b"]` leaves exactly one of
its rows persisted yet reports success, while the transactional main variant
on the same input persists zero rows and answers 500. -/
theorem c1_batch_atomicity_violated :
    (renderPostEvents c1db 0 "ip" (some "s") [emptyItem, emptyItem] ["a", "b"]).1 =
      { status := 200, ok := true, inserted := 2 }
    ∧ (renderPostEvents c1db 0 "ip" (some "s") [emptyItem, emptyItem] ["a", "b"]).2.events.length = 2
    ∧ c1db.events.length = 1
    ∧ (postEvents c1db 0 "ip" (some "s") [emptyItem, emptyItem] ["a", "b"]).1.status = 500
    ∧ (postEvents c1db 0 "ip" (some "s") [emptyItem, emptyItem] ["a", "b"]).2 = c1db := by
  decide

/-- C2 (amended): the effective page size is `min(requested, 500)` whenever the
requested `pageSize` parses to a nonzero number; an absent, non-numeric or
zero request falls back to the default 100; the offset is `(page − 1)` times
the effective (clamped) limit. -/
theorem c2_limit_clamp (n p : Int) (h : n ≠ 0) :
    computeLimit (some n) = min n 500
    ∧ computeOffset (some n) p = (p - 1) * min n 500
    ∧ computeLimit none = 100 := by
  simp [computeLimit, computeOffset, h]

/-- Witness for `c2_limit_clamp` at `pageSize = 7`, `page = 3`. -/
theorem c2_limit_clamp_witness :
    (7 : Int) ≠ 0
    ∧ (computeLimit (some 7) = min 7 500
      ∧ computeOffset (some 7) 3 = (3 - 1) * min 7 500
      ∧ computeLimit none = 100) :=
  ⟨by decide, c2_limit_clamp 7 3 (by decide)⟩

/-- C2 counterexample: requesting `pageSize=0` serves the default limit 100,
not `min(0, 500) = 0` as the claim's formula requires. -/
theorem c2_counterexample :
    computeLimit (some 0) = 100 ∧ min (0 : Int) 500 = 0 ∧ (100 : Int) ≠ 0 := by
  decide

/-- C3 (amended): in the SQLite variants a supplied `start` day keeps exactly
the rows from its local midnight on, and a supplied `end` day keeps exactly
the rows up to its last millisecond, so a calendar-day filter sees the whole
day. -/
theorem c3_day_boundaries (db : DB) (sd ed : Int) (r : EventRow) :
    (r ∈ eventsInRangeMain db (some sd) (some ed) ↔
      r ∈ db.events ∧ dayStartMs sd ≤ r.ts ∧ r.ts ≤ dayEndMs ed)
    ∧ (r ∈ eventsInRangeMain db (some sd) none ↔
      r ∈ db.events ∧ dayStartMs sd ≤ r.ts)
    ∧ (r ∈ eventsInRangeMain db none (some ed) ↔
      r ∈ db.events ∧ r.ts ≤ dayEndMs ed) := by
  refine ⟨?_, ?_, ?_⟩ <;> simp [eventsInRangeMain, tsFilter, List.mem_filter, and_assoc]

/-- C3 counterexample: the render variant filters on the raw supplied date
value, so `end = day 0` drops the noon-of-day-0 row even though its timestamp
lies within day 0; the main variant keeps it. -/
theorem c3_counterexample :
    eventsInRangeRender { events := [c3row], results := [] } none (some 0) = []
    ∧ dayStartMs 0 ≤ c3row.ts ∧ c3row.ts ≤ dayEndMs 0
    ∧ eventsInRangeMain { events := [c3row], results := [] } none (some 0) = [c3row] := by
  decide

/-- C4 (amended): a request without a truthy `session_id` cookie receives
exactly one freshly minted non-empty cookie — with max-age of 10 days in the
main/render variants but with no max-age at all in the fallback variant — and
a request presenting a non-empty `session_id` cookie never receives a
replacement in either middleware. -/
theorem c4_session_cookie (fresh s : String) (nowMs : Int) (f6 : String)
    (hf : fresh ≠ "") (hs : s ≠ "") :
    sessionMiddleware none fresh =
      some { cookieName := "session_id", value := fresh,
             maxAge := some (10 * 24 * 3600 * 1000), httpOnly := true }
    ∧ sessionMiddleware (some s) fresh = none
    ∧ (sessionMiddleware none fresh).all (fun c => c.value != "") = true
    ∧ sessionMiddlewareFallback none nowMs f6 =
      some { cookieName := "session_id",
             value := "sess_" ++ toString nowMs ++ "_" ++ f6,
             maxAge := none, httpOnly := false }
    ∧ sessionMiddlewareFallback (some s) nowMs f6 = none := by
  refine ⟨?_, ?_, ?_, ?_, ?_⟩ <;>
    simp [sessionMiddleware, sessionMiddlewareFallback, strTruthy, hs, hf]

/-- Witness for `c4_session_cookie` at concrete token values. -/
theorem c4_session_cookie_witness :
    ("tok" : String) ≠ "" ∧ ("abc" : String) ≠ ""
    ∧ sessionMiddleware none "tok" =
      some { cookieName := "session_id", value := "tok",
             maxAge := some (10 * 24 * 3600 * 1000), httpOnly := true } :=
  ⟨by decide, by decide, (c4_session_cookie "tok" "abc" 5 "qqq" (by decide) (by decide)).1⟩

/-- C4 counterexample: the fallback variant's middleware mints its cookie with
no max-age, not the claimed 10 days. -/
theorem c4_counterexample :
    (sessionMiddlewareFallback none 0 "abc").map SetCookie.maxAge = some none
    ∧ (some (none : Option Int)) ≠ some (some (10 * 24 * 3600 * 1000 : Int)) := by
  decide

/-- C5 (amended): in the main (and render) variants every row a
`POST /api/events` request persists carries the one shared server timestamp
`now`, whatever `ts` the items supplied; the fallback variant instead stores
the client-supplied `ts` of each item, with the server time only as default. -/
theorem c5_server_timestamp (db : DB) (now : Int) (ip : String) (cs : Option String)
    (items : List EventItem) (ids : List String) (sess : String) :
    (((postEvents db now ip cs items ids).2.events.drop db.events.length).all
      (fun r => r.ts == now)) = true
    ∧ (mkEventRowsFallback now sess ip items ids).map EventRow.ts
      = items.map (fun it => it.ts.getD now) := by
  constructor
  · cases postEvents_new_rows db now ip cs items ids with
    | inl h => rw [h]; rfl
    | inr h => rw [h]; exact mkEventRows_all_ts items ids now cs ip
  · exact mkEventRowsFallback_map_ts items ids now sess ip

/-- C5 counterexample: the fallback variant persists the client-supplied
timestamp 123 instead of the server ingestion time 999. -/
theorem c5_counterexample :
    ((fallbackPostEvents { events := [], results := [] } 999 "ip" "s"
      [c5item] ["x"]).2.events.map EventRow.ts) = [123]
    ∧ (123 : Int) ≠ 999 := by
  decide

/-- C6 (amended): the main `server.js` and the render variant resolve the
stored `page`, `type` and `payload` exactly by the spec's stated precedence
(explicit field, then alias / embedded properties field, then default); the
other variants do not. -/
theorem c6_field_resolution (it : EventItem) :
    resolvePage it = specPage it
    ∧ resolveType it = specType it
    ∧ resolvePayload it = specPayload it := by
  refine ⟨?_, ?_, ?_⟩
  · simp only [resolvePage, specPage, firstTruthy_cons, firstTruthy_nil]
  · simp only [resolveType, specType, firstTruthy_cons, firstTruthy_nil]
  · cases hp : it.payload <;> cases hq : it.properties <;>
      simp [resolvePayload, specPayload, hp, hq]

/-- C6 counterexample: the second SQLite variant ignores the alias fields: an
item carrying `event: "page_view"` and `properties.page: "/quiz"` is stored
with type `"custom"` and empty page, where the claim's resolution yields
`"page_view"` and `"/quiz"`. -/
theorem c6_counterexample :
    (mkEventRowsV2 0 none "" [c6item] ["x"]).map EventRow.type = ["custom"]
    ∧ (mkEventRowsV2 0 none "" [c6item] ["x"]).map EventRow.page = [""]
    ∧ specType c6item = "page_view" ∧ specPage c6item = "/quiz"
    ∧ ("custom" : String) ≠ "page_view" := by
  decide

/-- C7: the realtime counts are taken over exactly the rows whose timestamp is
at least `now − 5 minutes`, and the boundary instant itself satisfies the
window predicate (inclusive `>=`). -/
theorem c7_realtime_window (db : DB) (now : Int) (r : EventRow) :
    (realtime db now).recentEvents
      = (db.events.filter (fun e => inWindow now e.ts)).length
    ∧ (r ∈ db.events.filter (fun e => inWindow now e.ts) ↔
      r ∈ db.events ∧ fiveMinutesAgoOf now ≤ r.ts)
    ∧ inWindow now (fiveMinutesAgoOf now) = true
    ∧ (realtime db now).onlineUsers
      = ((db.events.filter (fun e => inWindow now e.ts)).filterMap
          EventRow.session_id).dedup.length := by
  refine ⟨rfl, ?_, ?_, rfl⟩
  · simp [List.mem_filter, inWindow]
  · simp [inWindow]

/-- C8: a GROUP-BY aggregation over zero matching rows is the empty list — in
particular an empty `results` table makes the dashboard's `quizResults` the
empty list (whatever the events table holds), and an empty `events` table
empties the other grouped lists too. -/
theorem c8_empty_aggregation (events : List EventRow) (today : Int) :
    (dashboard { events := events, results := [] } today).quizResults = []
    ∧ (dashboard { events := [], results := [] } today).topEvents = []
    ∧ (dashboard { events := [], results := [] } today).pageViews = []
    ∧ (dashboard { events := [], results := [] } today).hourlyEvents = [] :=
  ⟨rfl, rfl, rfl, rfl⟩

/-- C9: the minted-token half of the claim holds — the middleware attaches the
fresh token to the response only, and the insert paths read the session
identifier exclusively from the request's cookies, so rows inserted by a
request carry the request-cookie value and never the token minted during that
same request.  But the claimed first-request rows with a null session
reference cannot occur in the main SQLite variant: a cookieless request binds
the `undefined` `req.cookies.session_id` into `stInsertEvent.run` /
`stInsertResult.run`, better-sqlite3 rejects the binding, and the handler
answers 500 having ingested nothing — every new visitor's first write is lost,
against the spec's nullable `session_id`.  Only the Supabase render variant,
whose serialization drops the `undefined` key, ingests first-request rows, and
those indeed carry a NULL session. -/
theorem c9_minted_token_never_stored (db : DB) (cs : Option String) (ip fresh : String)
    (now : Int) (items : List EventItem) (ids : List String)
    (rn sc : Option String) (fid : String) :
    (((handleRequestEvents db cs ip fresh now items ids).2.2.events.drop
        db.events.length).all (fun r => r.session_id == cs)) = true
    ∧ (((handleRequestEvents db none ip fresh now items ids).2.2.events.drop
        db.events.length).all (fun r => !(r.session_id == some fresh))) = true
    ∧ (((handleRequestResults db cs fresh now rn sc fid).2.2.results.drop
        db.results.length).all (fun r => r.session_id == cs)) = true
    ∧ (handleRequestEvents db none ip fresh now items ids).1 =
      some { cookieName := "session_id", value := fresh,
             maxAge := some (10 * 24 * 3600 * 1000), httpOnly := true }
    ∧ (postEvents { events := [], results := [] } 0 "ip" none [emptyItem] ["x"]).1.status = 500
    ∧ (postEvents { events := [], results := [] } 0 "ip" none [emptyItem] ["x"]).2.events = []
    ∧ (postResults { events := [], results := [] } 0 none none none "x").1.status = 500
    ∧ (postResults { events := [], results := [] } 0 none none none "x").2.results = []
    ∧ (renderPostEvents { events := [], results := [] } 0 "ip" none [emptyItem]
        ["x"]).2.events.map EventRow.session_id = [none]
    ∧ (renderPostEvents { events := [], results := [] } 0 "ip" none [emptyItem]
        ["x"]).1.ok = true
    ∧ (renderPostResults { events := [], results := [] } 0 none none none
        "x").2.results.map ResultRow.session_id = [none] := by
  refine ⟨?_, ?_, ?_, rfl, by decide, by decide, by decide, by decide,
    by decide, by decide, by decide⟩
  · show (((postEvents db now ip cs items ids).2).events.drop db.events.length).all
      (fun r => r.session_id == cs) = true
    cases postEvents_new_rows db now ip cs items ids with
    | inl h => rw [h]; rfl
    | inr h => rw [h]; exact mkEventRows_all_session items ids now cs ip
  · show (((postEvents db now ip none items ids).2).events.drop db.events.length).all
      (fun r => !(r.session_id == some fresh)) = true
    cases postEvents_new_rows db now ip none items ids with
    | inl h => rw [h]; rfl
    | inr h => rw [h]; exact mkEventRows_all_nofresh items ids now ip fresh
  · show (((postResults db now cs rn sc fid).2).results.drop db.results.length).all
      (fun r => r.session_id == cs) = true
    by_cases hs : cs = none
    · simp [postResults, insertResult, hs, List.drop_length]
    · by_cases hc : db.results.any (fun e => e.id = fid)
      · simp [postResults, insertResult, hs, hc, List.drop_length]
      · simp [postResults, insertResult, hs, hc, List.drop_left]

/-- C10: `totalUsers` and `totalSessions` of the dashboard response are the
results of two textually identical `COUNT(DISTINCT session_id)` queries, so
they are equal on every database state. -/
theorem c10_totalUsers_eq_totalSessions (db : DB) (today : Int) :
    (dashboard db today).totalUsers = (dashboard db today).totalSessions := rfl

end Mindtest
